import Mathlib

/-!
Verification of the merthanaya-pos backend (FastAPI + Supabase point of sale).

This file shallowly embeds the business logic of the backend routers
(`orders.py`, `inventory.py`, `auth.py`, `analytics.py`) and the pydantic
response schemas (`models/order.py`) in Lean, and proves / refutes the
frozen specification claims about them.

Conventions of the embedding:
- Python `Decimal` values (prices, quantities, stock) become `ℚ` — exact
  decimal arithmetic, no binary floating point.  `float(...)` conversions at
  the serialization boundary are not modelled.
- The external store is explicit state: each endpoint is a function from a
  state record to `(Except HTTPError result) × state`.
- `HTTPException(status_code, detail)` becomes the `HTTPError` structure.
- `date.today()` (an ambient effect) becomes an explicit `Date` parameter.
- UUIDs become `String`s.
-/

/- ===================== Definitions ===================== -/

/-- `fastapi.HTTPException`: an HTTP status code plus a human-readable
detail string. -/
structure HTTPError where
  status_code : Nat
  detail : String
deriving Repr, DecidableEq

/-- A calendar date (`datetime.date`). -/
structure Date where
  year : Nat
  month : Nat
  day : Nat
deriving Repr, DecidableEq

/-- Python zero-padding of a decimal string to a minimum width, as performed
by the format specs `:03d` / `%Y` / `%m` / `%d` (pad on the left with the
character 0 when the representation is shorter than the width). -/
def zfill (width : Nat) (s : String) : String :=
  if s.length < width then String.mk (List.replicate (width - s.length) '0') ++ s else s

/-- `orders.format_daily_id`: formats the daily id as what Python writes as
a hash sign followed by the number padded to 3 digits. -/
def format_daily_id (number : Nat) : String :=
  "#" ++ zfill 3 (Nat.repr number)

/-- `date.strftime("%Y%m%d")`: year padded to 4 digits, month and day padded
to 2 digits. -/
def strftimeYYYYMMDD (d : Date) : String :=
  zfill 4 (Nat.repr d.year) ++ zfill 2 (Nat.repr d.month) ++ zfill 2 (Nat.repr d.day)

/-- `orders.generate_invoice_id`: builds INV-YYYYMMDD-XXX.  The source reads
the current date with `date.today()`; that ambient input is the explicit
`today` parameter here. -/
def generate_invoice_id (today : Date) (daily_id : Nat) : String :=
  "INV-" ++ strftimeYYYYMMDD today ++ "-" ++ zfill 3 (Nat.repr daily_id)

/-- Spec-side padding, written independently of `zfill` by arithmetic case
split: the spec says "zero-padded to 3 digits". -/
def specPad3 (n : Nat) : String :=
  if n < 10 then "00" ++ Nat.repr n
  else if n < 100 then "0" ++ Nat.repr n
  else Nat.repr n

/-- Spec-side short id: "#" followed by the daily id zero-padded to 3 digits. -/
def spec_short_id (n : Nat) : String := "#" ++ specPad3 n

/-- Spec-side invoice id: "INV-YYYYMMDD-" followed by the daily id
zero-padded to 3 digits. -/
def spec_invoice_id (d : Date) (n : Nat) : String :=
  "INV-" ++ strftimeYYYYMMDD d ++ "-" ++ specPad3 n

/- ------------------------------------------------------------------ -/
/- Pagination (orders.get_paid_orders, orders.get_transaction_history) -/
/- ------------------------------------------------------------------ -/

/-- The total-pages computation shared by `get_paid_orders` and
`get_transaction_history`: in Python,
total_pages = (total + page_size - 1) // page_size if total > 0 else 1. -/
def total_pages (total page_size : Nat) : Nat :=
  if total > 0 then (total + page_size - 1) / page_size else 1

/- ------------------------------------------------------- -/
/- Order status state machine (mark_order_paid, cancel_order) -/
/- ------------------------------------------------------- -/

/-- The order status column: PENDING, PAID or CANCELLED. -/
inductive OrderStatus where
  | PENDING
  | PAID
  | CANCELLED
deriving Repr, DecidableEq

/-- The string stored in the status column. -/
def OrderStatus.str : OrderStatus → String
  | .PENDING => "PENDING"
  | .PAID => "PAID"
  | .CANCELLED => "CANCELLED"

/-- `orders.mark_order_paid`, restricted to the one order addressed by id.
The input is the stored status of that order (`none` when the row does not
exist); the output is the response (the new status, as returned in the
PaymentResponse) or the raised HTTPException, paired with the stored status
afterwards.  Mirrors: 404 when the row is missing, 400 "Order is already
.." when status is not PENDING, otherwise update to PAID. -/
def mark_order_paid : Option OrderStatus → Except HTTPError OrderStatus × Option OrderStatus
  | none => (.error ⟨404, "Order not found"⟩, none)
  | some s =>
    if s ≠ .PENDING then
      (.error ⟨400, "Order is already " ++ s.str⟩, some s)
    else
      (.ok .PAID, some .PAID)

/-- `orders.cancel_order`, same shape: 404 when missing, 400 "Only pending
orders can be cancelled" when status is not PENDING, otherwise CANCELLED. -/
def cancel_order : Option OrderStatus → Except HTTPError OrderStatus × Option OrderStatus
  | none => (.error ⟨404, "Order not found"⟩, none)
  | some s =>
    if s ≠ .PENDING then
      (.error ⟨400, "Only pending orders can be cancelled"⟩, some s)
    else
      (.ok .CANCELLED, some .CANCELLED)

/- ----------------------------------- -/
/- Inventory adjustment (adjust_stock) -/
/- ----------------------------------- -/

/-- The state `inventory.adjust_stock` touches for one product: the stock
column of that product (`none` when the product row is missing) plus the
best-effort stock_history table. -/
structure StockHistoryRow where
  previous_stock : ℚ
  new_stock : ℚ
  adjustment : ℚ
  reason : Option String
deriving Repr, DecidableEq

structure InventoryState where
  stock : Option ℚ
  history : List StockHistoryRow
deriving Repr, DecidableEq

/-- The success payload of `adjust_stock`. -/
structure AdjustResult where
  previous_stock : ℚ
  new_stock : ℚ
  adjustment : ℚ
deriving Repr, DecidableEq

/-- `inventory.adjust_stock`: 404 when the product row is missing; computes
new_stock = current + adjustment; 400 "Cannot reduce stock below 0 ..."
when that is negative, leaving everything unchanged; otherwise persists the
new stock and then best-effort appends a stock_history row — `history_ok`
models whether that insert succeeds (the except-pass swallows its failure). -/
def adjust_stock (history_ok : Bool) (s : InventoryState)
    (adjustment : ℚ) (reason : Option String) :
    Except HTTPError AdjustResult × InventoryState :=
  match s.stock with
  | none => (.error ⟨404, "Product not found"⟩, s)
  | some current_stock =>
    let new_stock := current_stock + adjustment
    if new_stock < 0 then
      (.error ⟨400, "Cannot reduce stock below 0. Current: " ++ toString current_stock
          ++ ", Adjustment: " ++ toString adjustment⟩, s)
    else
      let s1 : InventoryState := { s with stock := some new_stock }
      let s2 : InventoryState :=
        if history_ok then
          { s1 with history :=
              s1.history ++ [⟨current_stock, new_stock, adjustment, reason⟩] }
        else s1
      (.ok ⟨current_stock, new_stock, adjustment⟩, s2)

/- --------------------------------------------------- -/
/- Order response schemas (models/order.py) and the     -/
/- constructor calls made by the order router (C8)      -/
/- --------------------------------------------------- -/

/-- `models/order.py OrderItemResponse`: its declared fields. -/
structure OrderItemResponse where
  id : String
  product_id : String
  product_name : String
  quantity : ℚ
  price_at_purchase : ℚ
  subtotal : ℚ
deriving Repr, DecidableEq

/-- `models/order.py OrderResponse`: exactly the fields the schema
declares — id, daily_id, short_id, runner_id, total_amount, status, items,
created_at, updated_at.  There is no invoice_id field. -/
structure OrderResponse where
  id : String
  daily_id : Nat
  short_id : String
  runner_id : Option String
  total_amount : ℚ
  status : String
  items : List OrderItemResponse
  created_at : String
  updated_at : String
deriving Repr, DecidableEq

/-- `models/order.py OrderSummary`: id, daily_id, short_id, total_amount,
status, item_count, created_at.  No invoice_id field. -/
structure OrderSummary where
  id : String
  daily_id : Nat
  short_id : String
  total_amount : ℚ
  status : String
  item_count : Nat
  created_at : String
deriving Repr, DecidableEq

/-- `models/order.py PaymentResponse`: id, short_id, status, paid_at.
No invoice_id field. -/
structure PaymentResponse where
  id : String
  short_id : String
  status : String
  paid_at : String
deriving Repr, DecidableEq

/-- The keyword-argument constructor call the router makes in
`create_order` / `get_order` (OrderResponse(id=..., daily_id=...,
short_id=..., invoice_id=..., runner_id=..., total_amount=..., status=...,
items=..., created_at=..., updated_at=...)).  Pydantic models ignore
keyword arguments that match no declared field (default extra behavior),
so the invoice_id argument is dropped. -/
def mkOrderResponse (id : String) (daily_id : Nat) (short_id : String)
    (invoice_id : String) (runner_id : Option String) (total_amount : ℚ)
    (status : String) (items : List OrderItemResponse)
    (created_at updated_at : String) : OrderResponse :=
  { id := id, daily_id := daily_id, short_id := short_id,
    runner_id := runner_id, total_amount := total_amount, status := status,
    items := items, created_at := created_at, updated_at := updated_at }

/-- The constructor call made in `get_pending_orders` / `get_paid_orders` /
`get_transaction_history` (OrderSummary(id=..., daily_id=..., short_id=...,
invoice_id=..., total_amount=..., status=..., item_count=...,
created_at=...)); the invoice_id argument matches no declared field and is
dropped. -/
def mkOrderSummary (id : String) (daily_id : Nat) (short_id : String)
    (invoice_id : String) (total_amount : ℚ) (status : String)
    (item_count : Nat) (created_at : String) : OrderSummary :=
  { id := id, daily_id := daily_id, short_id := short_id,
    total_amount := total_amount, status := status,
    item_count := item_count, created_at := created_at }

/-- The constructor call made in `mark_order_paid` (PaymentResponse(id=...,
short_id=..., invoice_id=..., status=..., paid_at=...)); the invoice_id
argument matches no declared field and is dropped. -/
def mkPaymentResponse (id : String) (short_id : String) (invoice_id : String)
    (status : String) (paid_at : String) : PaymentResponse :=
  { id := id, short_id := short_id, status := status, paid_at := paid_at }

/- -------------------------------------------- -/
/- Identity gateway (auth.get_current_user, C9)  -/
/- -------------------------------------------- -/

/-- The principal returned by the auth provider (`user_response.user`):
an id and an optional email. -/
structure AuthUser where
  id : String
  email : Option String
deriving Repr, DecidableEq

/-- A row of the users profile table, with every column optional the way
`profile.data.get(key, default)` treats it. -/
structure ProfileRow where
  full_name : Option String
  role : Option String
  is_active : Option Bool
  created_at : Option String
deriving Repr, DecidableEq

/-- The user-context dict `get_current_user` returns. -/
structure UserContext where
  id : String
  email : Option String
  full_name : String
  role : String
  is_active : Bool
  created_at : Option String
deriving Repr, DecidableEq

/-- Python `email.split("@")[0] if email else "User"`. -/
def fallback_full_name : Option String → String
  | some e => ((e.splitOn "@").headD "")
  | none => "User"

/-- `auth.get_current_user`.  Ambient effects become arguments: the
authorization header, the verdict of the auth provider on the bearer token
(`none` when the token is absent from the provider or rejected), and the
result of the admin-client profile lookup — `Except.error` when the lookup
raises (caught by the inner try/except and ignored), `Except.ok none` when
it returns no row.  A provider-accepted principal with no usable profile
row falls through to the synthesized default context with role admin. -/
def get_current_user (authorization : Option String)
    (provider_user : Option AuthUser)
    (profile_lookup : Except Unit (Option ProfileRow)) : Option UserContext :=
  match authorization with
  | none => none
  | some _ =>
    match provider_user with
    | none => none
    | some u =>
      match profile_lookup with
      | .ok (some profile) =>
        some { id := u.id, email := u.email,
               full_name := profile.full_name.getD "",
               role := profile.role.getD "staff",
               is_active := profile.is_active.getD true,
               created_at := profile.created_at }
      | .ok none =>
        some { id := u.id, email := u.email,
               full_name := fallback_full_name u.email,
               role := "admin", is_active := true, created_at := none }
      | .error _ =>
        some { id := u.id, email := u.email,
               full_name := fallback_full_name u.email,
               role := "admin", is_active := true, created_at := none }

/- ----------------------------------------------- -/
/- Analytics date-range resolution (analytics, C10) -/
/- ----------------------------------------------- -/

/-- `analytics.get_date_range`.  Dates are modelled as integer day numbers
so that `today - timedelta(days=days - 1)` is plain subtraction.  The
`days` parameter is an int, validated to be at least 1 by the route
declaration Query(7, ge=1, le=365). -/
def get_date_range (today : ℤ) (days : ℤ)
    (date_from date_to : Option ℤ) : ℤ × ℤ :=
  match date_from, date_to with
  | some f, some t => (f, t)
  | _, _ => (today - (days - 1), today)

/-- The default of the `days` query parameter on all analytics endpoints:
Query(7, ge=1, le=365). -/
def analytics_default_days : ℤ := 7

/- ------------------------------------------------ -/
/- Order creation (orders.create_order): data model  -/
/- ------------------------------------------------ -/

/-- A row of the products table, with the columns `create_order` and
`adjust_stock` read. -/
structure Product where
  id : String
  name : String
  price : ℚ
  stock : ℚ
  is_active : Bool
deriving Repr, DecidableEq

/-- `models/order.py OrderItemCreate`: one requested line of an order
(pydantic validates quantity > 0 before the endpoint body runs). -/
structure OrderItemCreate where
  product_id : String
  quantity : ℚ
deriving Repr, DecidableEq

/-- `models/order.py OrderCreate`. -/
structure OrderCreate where
  items : List OrderItemCreate
  runner_id : Option String
deriving Repr, DecidableEq

/-- A row of the order_items table as built by `create_order` (the
order_id column is attached at insert time). -/
structure OrderItemRow where
  product_id : String
  product_name : String
  quantity : ℚ
  price_at_purchase : ℚ
  subtotal : ℚ
deriving Repr, DecidableEq

/-- A row of the orders table. -/
structure OrderRow where
  id : Nat
  daily_id : Nat
  invoice_id : String
  runner_id : Option String
  total_amount : ℚ
  status : OrderStatus
deriving Repr, DecidableEq

/-- The slice of the external store `create_order` touches: the products
table, today's daily_counters row (none when absent), the orders table and
the order_items table.  Row ids are modelled as insertion indices. -/
structure DB where
  products : List Product
  daily_counter : Option Nat
  orders : List OrderRow
  order_items : List (Nat × OrderItemRow)
deriving Repr, DecidableEq

/-- Whether the two external inserts report data back (`order_result.data`
/ `items_result.data` non-empty); the store's failure behavior is an input
of the model. -/
structure StoreBehavior where
  orderInsertOk : Bool
  itemsInsertOk : Bool
deriving Repr, DecidableEq

/-- `orders.get_or_create_daily_counter`, acting on today's counter row:
with a row holding last_number, write back last_number + 1 and return it;
with no row, insert 1 and return 1.  Returns (value used, row afterwards). -/
def get_or_create_daily_counter : Option Nat → Nat × Option Nat
  | some last_number => (last_number + 1, some (last_number + 1))
  | none => (1, some 1)

/-- The batch lookup: select * from products where id in product_ids. -/
def queryProductsIn (products : List Product) (ids : List String) : List Product :=
  products.filter (fun p => ids.contains p.id)

/-- Lookup in the Python dict comprehension over the fetched rows (a later
row with the same id overwrites an earlier one, hence the reverse). -/
def dictGet (data : List Product) (k : String) : Option Product :=
  data.reverse.find? (fun p => p.id == k)

/-- The validation loop of `create_order`: the first item whose product id
is not in the lookup dict raises 400 "Product .. not found"; the first
item whose product is inactive raises 400 "Product '..' is not available". -/
def validate_items (pm : String → Option Product) :
    List OrderItemCreate → Option HTTPError
  | [] => none
  | item :: rest =>
    match pm item.product_id with
    | none => some ⟨400, "Product " ++ item.product_id ++ " not found"⟩
    | some product =>
      if product.is_active = false then
        some ⟨400, "Product '" ++ product.name ++ "' is not available"⟩
      else validate_items pm rest

/-- The pricing loop of `create_order`: walks the items accumulating
total_amount, snapshotting each product's name and price and computing
subtotal = price * quantity.  A missing dict key would be a raised
KeyError, degraded to a 500 by the outermost except-clause. -/
def build_items (pm : String → Option Product) :
    List OrderItemCreate → ℚ → Except HTTPError (List OrderItemRow × ℚ)
  | [], total_amount => .ok ([], total_amount)
  | item :: rest, total_amount =>
    match pm item.product_id with
    | none => .error ⟨500, "KeyError"⟩
    | some product =>
      let price := product.price
      let subtotal := price * item.quantity
      match build_items pm rest (total_amount + subtotal) with
      | .error e => .error e
      | .ok (rows, total) =>
        .ok (⟨item.product_id, product.name, item.quantity, price, subtotal⟩ :: rows, total)

/-- What `create_order` returns to the caller (the fields of the response
the claims are about; timestamps are store-generated and not modelled). -/
structure CreateOrderResult where
  daily_id : Nat
  short_id : String
  invoice_id : String
  total_amount : ℚ
  items : List OrderItemRow
deriving Repr, DecidableEq

/-- `orders.create_order`: batch product fetch, 400 when no referenced
product exists, per-item validation (unknown id / inactive product, both
400), daily-counter increment, invoice and short id derivation, pricing
loop, order insert (500 when the store returns nothing), item insert with
best-effort compensating delete of the fresh order row (500). -/
def create_order (today : Date) (b : StoreBehavior) (db : DB)
    (order : OrderCreate) : Except HTTPError CreateOrderResult × DB :=
  let product_ids := order.items.map (fun item => item.product_id)
  let data := queryProductsIn db.products product_ids
  if data.isEmpty then (.error ⟨400, "No valid products found"⟩, db)
  else
    match validate_items (dictGet data) order.items with
    | some e => (.error e, db)
    | none =>
      let dc := get_or_create_daily_counter db.daily_counter
      let daily_id := dc.1
      let db1 : DB := { db with daily_counter := dc.2 }
      let short_id := format_daily_id daily_id
      let invoice_id := generate_invoice_id today daily_id
      match build_items (dictGet data) order.items 0 with
      | .error e => (.error e, db1)
      | .ok (order_items_data, total_amount) =>
        if b.orderInsertOk then
          let order_id := db1.orders.length
          let row : OrderRow :=
            ⟨order_id, daily_id, invoice_id, order.runner_id, total_amount, .PENDING⟩
          let db2 : DB := { db1 with orders := db1.orders ++ [row] }
          if b.itemsInsertOk then
            let inserted_items := order_items_data.map (fun r => (order_id, r))
            let db3 : DB := { db2 with order_items := db2.order_items ++ inserted_items }
            (.ok ⟨daily_id, short_id, invoice_id, total_amount, order_items_data⟩, db3)
          else
            let remaining := db2.orders.filter (fun r => r.id != order_id)
            let db3 : DB := { db2 with orders := remaining }
            (.error ⟨500, "Failed to create order items"⟩, db3)
        else
          (.error ⟨500, "Failed to create order"⟩, db1)

/-- Strictly sequential `create_order` calls, one per request in the list,
threading the store state. -/
def createOrderSeq (today : Date) (b : StoreBehavior) :
    List OrderCreate → DB → List (Except HTTPError CreateOrderResult) × DB
  | [], db => ([], db)
  | o :: os, db =>
    let r := create_order today b db o
    let rest := createOrderSeq today b os r.2
    (r.1 :: rest.1, rest.2)

/-- The daily id a createOrder call assigned, none when it failed. -/
def resultDailyId : Except HTTPError CreateOrderResult → Option Nat
  | .ok res => some res.daily_id
  | .error _ => none

/-- The request references at least one existing product and every
referenced product exists and is active — the conditions under which the
validation phase of `create_order` passes. -/
def orderValidFor (db : DB) (o : OrderCreate) : Prop :=
  (queryProductsIn db.products
    (o.items.map (fun item => item.product_id))).isEmpty = false ∧
  validate_items (dictGet (queryProductsIn db.products
    (o.items.map (fun item => item.product_id)))) o.items = none

/- Concrete fixtures used by the closed witnesses and the counterexample. -/

def demoProductA : Product := ⟨"p1", "Apple", 10, 100, true⟩

def demoProductB : Product := ⟨"p2", "Banana", 5, 50, true⟩

/-- A store with two active products, no counter row for today, and no
orders yet. -/
def demoDB : DB := ⟨[demoProductA, demoProductB], none, [], []⟩

/-- The spec scenario: items [(productA, qty 2, price 10), (productB,
qty 1, price 5)]. -/
def demoOrder : OrderCreate := ⟨[⟨"p1", 2⟩, ⟨"p2", 1⟩], none⟩

/-- An order referencing one existing and one unknown product id. -/
def demoBadOrder : OrderCreate := ⟨[⟨"p1", 1⟩, ⟨"p9", 1⟩], none⟩

/-- The item rows the demo order produces: subtotals 20 and 5. -/
def demoRows : List OrderItemRow :=
  [⟨"p1", "Apple", 2, 10, 20⟩, ⟨"p2", "Banana", 1, 5, 5⟩]

/-- The response of the demo creation: daily id 1, total 25. -/
def demoRes : CreateOrderResult :=
  ⟨1, format_daily_id 1, generate_invoice_id ⟨2024, 1, 5⟩ 1, 25, demoRows⟩

/-- The store after the demo creation. -/
def demoDBAfter : DB :=
  ⟨demoDB.products, some 1,
   [⟨0, 1, generate_invoice_id ⟨2024, 1, 5⟩ 1, none, 25, .PENDING⟩],
   demoRows.map (fun r => (0, r))⟩

/- ===================== Theorems ===================== -/

/- Facts about the decimal digit expansion used by `Nat.repr`. -/

theorem toDigitsCore_length_mono (b : Nat) :
    ∀ (fuel n : Nat) (ds : List Char),
      ds.length ≤ (Nat.toDigitsCore b fuel n ds).length := by
  intro fuel
  induction fuel with
  | zero => intro n ds; exact le_rfl
  | succ f ih =>
    intro n ds
    simp only [Nat.toDigitsCore]
    by_cases h : n / b = 0
    · simp [h]
    · simp only [h, if_false]
      calc ds.length ≤ (Nat.digitChar (n % b) :: ds).length := by simp
        _ ≤ _ := ih (n / b) (Nat.digitChar (n % b) :: ds)

theorem toDigitsCore_length_lb :
    ∀ (k fuel n : Nat) (ds : List Char), 10 ^ k ≤ n → k + 1 ≤ fuel →
      ds.length + k + 1 ≤ (Nat.toDigitsCore 10 fuel n ds).length := by
  intro k
  induction k with
  | zero =>
    intro fuel n ds _ hfuel
    cases fuel with
    | zero => omega
    | succ f =>
      simp only [Nat.toDigitsCore]
      by_cases h : n / 10 = 0
      · simp [h]
      · simp only [h, if_false]
        have := toDigitsCore_length_mono 10 f (n / 10) (Nat.digitChar (n % 10) :: ds)
        simpa using this
  | succ k ih =>
    intro fuel n ds hn hfuel
    cases fuel with
    | zero => omega
    | succ f =>
      have hb : (10 : Nat) ^ (k + 1) ≤ n := hn
      have hdiv : 10 ^ k ≤ n / 10 := by
        rw [Nat.le_div_iff_mul_le (by norm_num)]
        calc 10 ^ k * 10 = 10 ^ (k + 1) := by ring
          _ ≤ n := hb
      have hpow : 0 < (10 : Nat) ^ k := pow_pos (by norm_num) k
      have hne : n / 10 ≠ 0 := by omega
      simp only [Nat.toDigitsCore, hne, if_false]
      have := ih f (n / 10) (Nat.digitChar (n % 10) :: ds) hdiv (by omega)
      simp only [List.length_cons] at this
      omega

theorem toDigitsCore_lt_ten (fuel n : Nat) (ds : List Char) (hn : n < 10)
    (hf : 1 ≤ fuel) :
    Nat.toDigitsCore 10 fuel n ds = Nat.digitChar n :: ds := by
  cases fuel with
  | zero => omega
  | succ f =>
    have hdiv : n / 10 = 0 := Nat.div_eq_of_lt hn
    have hmod : n % 10 = n := Nat.mod_eq_of_lt hn
    simp [Nat.toDigitsCore, hdiv, hmod]

theorem toDigitsCore_mid (fuel n : Nat) (ds : List Char) (h10 : 10 ≤ n)
    (h100 : n < 100) (hf : 2 ≤ fuel) :
    Nat.toDigitsCore 10 fuel n ds =
      Nat.digitChar (n / 10) :: Nat.digitChar (n % 10) :: ds := by
  cases fuel with
  | zero => omega
  | succ f =>
    have hne : n / 10 ≠ 0 := by
      have : 1 ≤ n / 10 := Nat.le_div_iff_mul_le (by norm_num) |>.mpr (by omega)
      omega
    simp only [Nat.toDigitsCore, hne, if_false]
    have hlt : n / 10 < 10 := by omega
    exact toDigitsCore_lt_ten f (n / 10) _ hlt (by omega)

theorem repr_lt_ten (n : Nat) (h : n < 10) :
    Nat.repr n = String.mk [Nat.digitChar n] := by
  unfold Nat.repr Nat.toDigits
  rw [toDigitsCore_lt_ten (n + 1) n [] h (by omega)]
  rfl

theorem repr_mid (n : Nat) (h10 : 10 ≤ n) (h100 : n < 100) :
    Nat.repr n = String.mk [Nat.digitChar (n / 10), Nat.digitChar (n % 10)] := by
  unfold Nat.repr Nat.toDigits
  rw [toDigitsCore_mid (n + 1) n [] h10 h100 (by omega)]
  rfl

theorem repr_length_lt_ten (n : Nat) (h : n < 10) : (Nat.repr n).length = 1 := by
  rw [repr_lt_ten n h]; rfl

theorem repr_length_mid (n : Nat) (h10 : 10 ≤ n) (h100 : n < 100) :
    (Nat.repr n).length = 2 := by
  rw [repr_mid n h10 h100]; rfl

theorem repr_length_ge_three (n : Nat) (h : 100 ≤ n) : 3 ≤ (Nat.repr n).length := by
  unfold Nat.repr Nat.toDigits
  have := toDigitsCore_length_lb 2 (n + 1) n [] (by simpa using h) (by omega)
  simpa [String.length, List.asString] using this

theorem zfill3_of_length_one (s : String) (h : s.length = 1) :
    zfill 3 s = "00" ++ s := by
  unfold zfill
  rw [h, if_pos (by norm_num)]
  rfl

theorem zfill3_of_length_two (s : String) (h : s.length = 2) :
    zfill 3 s = "0" ++ s := by
  unfold zfill
  rw [h, if_pos (by norm_num)]
  rfl

theorem zfill3_of_length_ge_three (s : String) (h : 3 ≤ s.length) :
    zfill 3 s = s := by
  unfold zfill
  rw [if_neg (by omega)]

/-- The source padding of the decimal representation agrees with the
spec-side arithmetic case split, for every natural number. -/
theorem zfill_repr_eq_specPad3 (n : Nat) : zfill 3 (Nat.repr n) = specPad3 n := by
  unfold specPad3
  by_cases h1 : n < 10
  · rw [if_pos h1, zfill3_of_length_one _ (repr_length_lt_ten n h1)]
  · by_cases h2 : n < 100
    · rw [if_neg h1, if_pos h2,
        zfill3_of_length_two _ (repr_length_mid n (by omega) h2)]
    · rw [if_neg h1, if_neg h2,
        zfill3_of_length_ge_three _ (repr_length_ge_three n (by omega))]

/-- C4: short_id is the pure function sending a daily id to a hash sign
followed by the 3-digit zero-padded daily id, with short_id of 7 equal to
"#007"; invoice_id is the pure function of creation date and daily id
INV-YYYYMMDD-XXX, with invoice_id of 2024-01-05 and 7 equal to
"INV-20240105-007" — for every daily_id at least 1. -/
theorem C4_short_and_invoice_id_format :
    format_daily_id 7 = "#007" ∧
    generate_invoice_id ⟨2024, 1, 5⟩ 7 = "INV-20240105-007" ∧
    ∀ (d : Date) (n : Nat), 1 ≤ n →
      format_daily_id n = spec_short_id n ∧
      generate_invoice_id d n = spec_invoice_id d n := by
  refine ⟨by decide, by decide, ?_⟩
  intro d n _
  unfold format_daily_id spec_short_id generate_invoice_id spec_invoice_id
  rw [zfill_repr_eq_specPad3]
  exact ⟨rfl, rfl⟩

/-- Witness for C4 at daily id 7 and date 2024-01-05. -/
theorem C4_witness :
    (1 ≤ 7 ∧ format_daily_id 7 = spec_short_id 7 ∧
      generate_invoice_id ⟨2024, 1, 5⟩ 7 = spec_invoice_id ⟨2024, 1, 5⟩ 7) :=
  ⟨by decide, C4_short_and_invoice_id_format.2.2 ⟨2024, 1, 5⟩ 7 (by decide)⟩

/-- C7: for every listPaid / listHistory result, total_pages is the ceiling
of total divided by page_size when total is positive (characterized as the
least k with total ≤ k * page_size), and is 1 when total is 0; in
particular total 25 with page size 10 gives 3 pages and total 0 gives 1. -/
theorem C7_total_pages_is_ceiling :
    (∀ total page_size : Nat, 0 < page_size →
      (total = 0 → total_pages total page_size = 1) ∧
      (0 < total →
        total ≤ total_pages total page_size * page_size ∧
        ∀ k, total ≤ k * page_size → total_pages total page_size ≤ k)) ∧
    total_pages 25 10 = 3 ∧ total_pages 0 10 = 1 := by
  refine ⟨?_, by decide, by decide⟩
  intro total ps hps
  constructor
  · intro h0; simp [total_pages, h0]
  · intro hpos
    have hdef : total_pages total ps = (total + ps - 1) / ps := by
      simp [total_pages, hpos]
    constructor
    · rw [hdef]
      have hdm := Nat.div_add_mod (total + ps - 1) ps
      have hml : (total + ps - 1) % ps < ps := Nat.mod_lt _ hps
      rw [Nat.mul_comm]
      omega
    · intro k hk
      rw [hdef]
      have : total + ps - 1 < (k + 1) * ps := by
        have he : (k + 1) * ps = k * ps + ps := by ring
        omega
      have := (Nat.div_lt_iff_lt_mul hps).mpr this
      omega

/-- Witness for C7 at total 25, page size 10 (3 pages, and 3 is least). -/
theorem C7_witness :
    25 ≤ total_pages 25 10 * 10 ∧
      ∀ k, 25 ≤ k * 10 → total_pages 25 10 ≤ k :=
  (C7_total_pages_is_ceiling.1 25 10 (by decide)).2 (by decide)

/-- C3: markPaid signals NotFound (404) on a missing order and Conflict
(400, detail carrying the current status) on a non-PENDING order, else sets
PAID; cancel signals NotFound on missing and Conflict on non-PENDING, else
sets CANCELLED; consequently the status only moves PENDING to PAID or
PENDING to CANCELLED, and PAID and CANCELLED are terminal under both
status-mutating operations (these two are the only exposed operations that
write the status of an existing order — createOrder only inserts fresh
PENDING rows). -/
theorem C3_status_state_machine :
    mark_order_paid none = (.error ⟨404, "Order not found"⟩, none) ∧
    cancel_order none = (.error ⟨404, "Order not found"⟩, none) ∧
    mark_order_paid (some .PENDING) = (.ok .PAID, some .PAID) ∧
    cancel_order (some .PENDING) = (.ok .CANCELLED, some .CANCELLED) ∧
    (∀ s : OrderStatus, s ≠ .PENDING →
      mark_order_paid (some s) =
        (.error ⟨400, "Order is already " ++ s.str⟩, some s)) ∧
    (∀ s : OrderStatus, s ≠ .PENDING →
      cancel_order (some s) =
        (.error ⟨400, "Only pending orders can be cancelled"⟩, some s)) ∧
    (∀ s s' : OrderStatus, (mark_order_paid (some s)).2 = some s' →
      s' = s ∨ (s = .PENDING ∧ s' = .PAID)) ∧
    (∀ s s' : OrderStatus, (cancel_order (some s)).2 = some s' →
      s' = s ∨ (s = .PENDING ∧ s' = .CANCELLED)) ∧
    (∀ s : OrderStatus, s = .PAID ∨ s = .CANCELLED →
      (mark_order_paid (some s)).2 = some s ∧
      (cancel_order (some s)).2 = some s ∧
      (∃ e, (mark_order_paid (some s)).1 = .error e) ∧
      (∃ e, (cancel_order (some s)).1 = .error e)) := by
  refine ⟨rfl, rfl, rfl, rfl, ?_, ?_, ?_, ?_, ?_⟩
  · intro s h
    cases s
    · exact absurd rfl h
    · rfl
    · rfl
  · intro s h
    cases s
    · exact absurd rfl h
    · rfl
    · rfl
  · intro s s' h
    cases s <;> cases s' <;>
      first
        | (left; rfl)
        | (right; exact ⟨rfl, rfl⟩)
        | exact absurd h (by decide)
  · intro s s' h
    cases s <;> cases s' <;>
      first
        | (left; rfl)
        | (right; exact ⟨rfl, rfl⟩)
        | exact absurd h (by decide)
  · intro s h
    rcases h with rfl | rfl
    · exact ⟨rfl, rfl, ⟨_, rfl⟩, ⟨_, rfl⟩⟩
    · exact ⟨rfl, rfl, ⟨_, rfl⟩, ⟨_, rfl⟩⟩

/-- Witness for C3 at the already-PAID order: paying again conflicts and
the stored status stays PAID. -/
theorem C3_witness :
    mark_order_paid (some .PAID) =
      (.error ⟨400, "Order is already " ++ OrderStatus.str .PAID⟩, some .PAID) :=
  C3_status_state_machine.2.2.2.2.1 .PAID (by decide)

/-- Evaluation of `adjust_stock` on an existing product row. -/
theorem adjust_stock_some (history_ok : Bool) (s : InventoryState)
    (current delta : ℚ) (reason : Option String) (hs : s.stock = some current) :
    adjust_stock history_ok s delta reason =
      if current + delta < 0 then
        (.error ⟨400, "Cannot reduce stock below 0. Current: " ++ toString current
            ++ ", Adjustment: " ++ toString delta⟩, s)
      else
        (.ok ⟨current, current + delta, delta⟩,
          ⟨some (current + delta),
            if history_ok then
              s.history ++ [⟨current, current + delta, delta, reason⟩]
            else s.history⟩) := by
  simp only [adjust_stock, hs]
  by_cases hlt : current + delta < 0
  · rw [if_pos hlt, if_pos hlt]
  · rw [if_neg hlt, if_neg hlt]
    cases history_ok <;> rfl

/-- C5: for an existing product with stock s and adjustment delta, the
operation fails with InvalidInput (400) and leaves the stock unchanged when
s + delta is negative, and succeeds setting the stock to s + delta when
s + delta is nonnegative (including exactly 0); whether the best-effort
history append succeeds never changes the response or the resulting stock. -/
theorem C5_adjust_stock :
    ∀ (history_ok : Bool) (s : InventoryState) (current delta : ℚ)
      (reason : Option String),
      s.stock = some current →
      (current + delta < 0 →
        ∃ e, adjust_stock history_ok s delta reason = (.error e, s) ∧
          e.status_code = 400) ∧
      (0 ≤ current + delta →
        (adjust_stock history_ok s delta reason).1 =
          .ok ⟨current, current + delta, delta⟩ ∧
        (adjust_stock history_ok s delta reason).2.stock =
          some (current + delta)) ∧
      ((adjust_stock history_ok s delta reason).1 =
          (adjust_stock true s delta reason).1 ∧
        (adjust_stock history_ok s delta reason).2.stock =
          (adjust_stock true s delta reason).2.stock) := by
  intro hok s current delta reason hs
  refine ⟨?_, ?_, ?_⟩
  · intro hneg
    refine ⟨⟨400, "Cannot reduce stock below 0. Current: " ++ toString current
        ++ ", Adjustment: " ++ toString delta⟩, ?_, rfl⟩
    rw [adjust_stock_some hok s current delta reason hs, if_pos hneg]
  · intro hnn
    have hnot : ¬ current + delta < 0 := not_lt.mpr hnn
    rw [adjust_stock_some hok s current delta reason hs, if_neg hnot]
    exact ⟨rfl, rfl⟩
  · rw [adjust_stock_some hok s current delta reason hs,
      adjust_stock_some true s current delta reason hs]
    by_cases hlt : current + delta < 0
    · rw [if_pos hlt, if_pos hlt]
      exact ⟨rfl, rfl⟩
    · rw [if_neg hlt, if_neg hlt]
      exact ⟨rfl, rfl⟩

/-- Witness for C5: with stock 10, adjusting by -15 fails with a 400 and
leaves the state untouched, while adjusting by -10 succeeds leaving stock 0. -/
theorem C5_witness :
    (∃ e, adjust_stock true ⟨some 10, []⟩ (-15) none =
        (.error e, ⟨some 10, []⟩) ∧ e.status_code = 400) ∧
    (adjust_stock true ⟨some 10, []⟩ (-10) none).1 = .ok ⟨10, 10 + -10, -10⟩ ∧
    (adjust_stock true ⟨some 10, []⟩ (-10) none).2.stock = some (10 + -10) :=
  ⟨(C5_adjust_stock true ⟨some 10, []⟩ 10 (-15) none rfl).1 (by norm_num),
   (C5_adjust_stock true ⟨some 10, []⟩ 10 (-10) none rfl).2.1 (by norm_num)⟩

/-- C8: none of OrderResponse, OrderSummary, PaymentResponse declares an
invoice_id field, so even though the order router computes an invoice_id
and passes it to each response constructor, the constructed response is
independent of that value — the invoice_id never appears in any returned
order record. -/
theorem C8_invoice_id_dropped_from_responses :
    (∀ (id : String) (daily_id : Nat) (short_id inv inv' : String)
        (runner_id : Option String) (total_amount : ℚ) (status : String)
        (items : List OrderItemResponse) (created_at updated_at : String),
      mkOrderResponse id daily_id short_id inv runner_id total_amount
          status items created_at updated_at =
        mkOrderResponse id daily_id short_id inv' runner_id total_amount
          status items created_at updated_at) ∧
    (∀ (id : String) (daily_id : Nat) (short_id inv inv' : String)
        (total_amount : ℚ) (status : String) (item_count : Nat)
        (created_at : String),
      mkOrderSummary id daily_id short_id inv total_amount status
          item_count created_at =
        mkOrderSummary id daily_id short_id inv' total_amount status
          item_count created_at) ∧
    (∀ (id short_id inv inv' status paid_at : String),
      mkPaymentResponse id short_id inv status paid_at =
        mkPaymentResponse id short_id inv' status paid_at) :=
  ⟨fun _ _ _ _ _ _ _ _ _ _ _ => rfl,
   fun _ _ _ _ _ _ _ _ _ => rfl,
   fun _ _ _ _ _ _ => rfl⟩

/-- C9: for every provider-accepted token whose principal has no row in the
users profile table (or whose profile lookup raises), get_current_user
returns a synthesized context with role admin and is_active true; and for a
provider-accepted token it never returns none, whatever the lookup does. -/
theorem C9_profileless_user_defaults_to_admin :
    ∀ (tok : String) (u : AuthUser)
      (profile_lookup : Except Unit (Option ProfileRow)),
      (profile_lookup = .ok none ∨ profile_lookup = .error () →
        ∃ ctx, get_current_user (some tok) (some u) profile_lookup = some ctx ∧
          ctx.role = "admin" ∧ ctx.is_active = true) ∧
      (get_current_user (some tok) (some u) profile_lookup).isSome = true := by
  intro tok u pl
  constructor
  · rintro (rfl | rfl)
    · exact ⟨_, rfl, rfl, rfl⟩
    · exact ⟨_, rfl, rfl, rfl⟩
  · rcases pl with _ | pd
    · rfl
    · rcases pd with _ | p
      · rfl
      · rfl

/-- Witness for C9: a concrete accepted token whose profile lookup returns
no row resolves to an admin context. -/
theorem C9_witness :
    ((Except.ok none : Except Unit (Option ProfileRow)) = .ok none ∨
        (Except.ok none : Except Unit (Option ProfileRow)) = .error ()) ∧
    ∃ ctx, get_current_user (some "tok") (some ⟨"u1", some "runner@pos.local"⟩)
        (.ok none) = some ctx ∧ ctx.role = "admin" ∧ ctx.is_active = true :=
  ⟨Or.inl rfl,
   (C9_profileless_user_defaults_to_admin "tok" ⟨"u1", some "runner@pos.local"⟩
      (.ok none)).1 (Or.inl rfl)⟩

/-- C10: the resolved range is (dateFrom, dateTo) whenever both explicit
bounds are supplied (overriding days), and otherwise is the trailing `days`
calendar days ending today inclusive, that is (today - (days - 1), today);
the days parameter defaults to 7. -/
theorem C10_date_range_resolution :
    ∀ (today days f t : ℤ),
      get_date_range today days (some f) (some t) = (f, t) ∧
      (∀ date_from date_to : Option ℤ, date_from = none ∨ date_to = none →
        get_date_range today days date_from date_to =
          (today - (days - 1), today)) ∧
      get_date_range today analytics_default_days none none =
        (today - 6, today) := by
  intro today days f t
  refine ⟨rfl, ?_, ?_⟩
  · intro df dt h
    match df, dt with
    | none, none => rfl
    | none, some _ => rfl
    | some _, none => rfl
    | some _, some _ => rcases h with h | h <;> exact absurd h (by simp)
  · show (today - (7 - 1), today) = (today - 6, today)
    norm_num

/-- Witness for C10: with only a lower bound supplied it is ignored and the
trailing-days rule applies. -/
theorem C10_witness :
    ((some (5 : ℤ) : Option ℤ) = none ∨ (none : Option ℤ) = none) ∧
    get_date_range 100 7 (some 5) none = (100 - (7 - 1), 100) :=
  ⟨Or.inr rfl,
   (C10_date_range_resolution 100 7 5 0).2.1 (some 5) none (Or.inr rfl)⟩

/- Lemmas about the pricing and validation loops. -/

theorem build_items_ok_spec (pm : String → Option Product) :
    ∀ (items : List OrderItemCreate) (acc : ℚ) (rows : List OrderItemRow) (total : ℚ),
      build_items pm items acc = .ok (rows, total) →
      total = acc + (rows.map OrderItemRow.subtotal).sum ∧
      rows.map OrderItemRow.quantity = items.map OrderItemCreate.quantity ∧
      rows.map OrderItemRow.product_id = items.map OrderItemCreate.product_id ∧
      ∀ r ∈ rows, r.subtotal = r.price_at_purchase * r.quantity ∧
        ∃ p, pm r.product_id = some p ∧ r.price_at_purchase = p.price ∧
          r.product_name = p.name := by
  intro items
  induction items with
  | nil =>
    intro acc rows total h
    simp only [build_items, Except.ok.injEq, Prod.mk.injEq] at h
    obtain ⟨h1, h2⟩ := h
    subst h1
    subst h2
    simp
  | cons item rest ih =>
    intro acc rows total h
    simp only [build_items] at h
    cases hpm : pm item.product_id with
    | none =>
      simp only [hpm] at h
      exact Except.noConfusion h
    | some product =>
      simp only [hpm] at h
      cases hb : build_items pm rest (acc + product.price * item.quantity) with
      | error e =>
        simp only [hb] at h
        exact Except.noConfusion h
      | ok v =>
        obtain ⟨rows', total'⟩ := v
        simp only [hb, Except.ok.injEq, Prod.mk.injEq] at h
        obtain ⟨h1, h2⟩ := h
        subst h1
        subst h2
        obtain ⟨iht, ihq, ihp, ihr⟩ :=
          ih (acc + product.price * item.quantity) rows' total' hb
        refine ⟨?_, ?_, ?_, ?_⟩
        · rw [iht, List.map_cons, List.sum_cons]
          ring
        · rw [List.map_cons, List.map_cons, ihq]
        · rw [List.map_cons, List.map_cons, ihp]
        · intro r hr
          rcases List.mem_cons.mp hr with rfl | hr'
          · exact ⟨rfl, product, hpm, rfl, rfl⟩
          · exact ihr r hr'

theorem validate_items_ok_build_ok (pm : String → Option Product) :
    ∀ (items : List OrderItemCreate), validate_items pm items = none →
      ∀ acc, ∃ rows total, build_items pm items acc = .ok (rows, total) := by
  intro items
  induction items with
  | nil => intro _ acc; exact ⟨[], acc, rfl⟩
  | cons item rest ih =>
    intro hval acc
    simp only [validate_items] at hval
    cases hpm : pm item.product_id with
    | none => simp only [hpm] at hval; exact Option.noConfusion hval
    | some product =>
      simp only [hpm] at hval
      by_cases hact : product.is_active = false
      · rw [if_pos hact] at hval
        exact Option.noConfusion hval
      · rw [if_neg hact] at hval
        obtain ⟨rows, total, hb⟩ := ih hval (acc + product.price * item.quantity)
        refine ⟨⟨item.product_id, product.name, item.quantity, product.price,
          product.price * item.quantity⟩ :: rows, total, ?_⟩
        simp only [build_items, hpm, hb]

theorem validate_items_some_400 (pm : String → Option Product) :
    ∀ (items : List OrderItemCreate) (e : HTTPError),
      validate_items pm items = some e → e.status_code = 400 := by
  intro items
  induction items with
  | nil => intro e h; exact Option.noConfusion h
  | cons item rest ih =>
    intro e h
    simp only [validate_items] at h
    cases hpm : pm item.product_id with
    | none =>
      simp only [hpm, Option.some.injEq] at h
      rw [← h]
    | some product =>
      simp only [hpm] at h
      by_cases hact : product.is_active = false
      · rw [if_pos hact] at h
        obtain rfl := Option.some.inj h
        rfl
      · rw [if_neg hact] at h
        exact ih e h

theorem validate_items_finds_bad (pm : String → Option Product) :
    ∀ (items : List OrderItemCreate),
      (∃ it ∈ items, pm it.product_id = none ∨
        ∃ p, pm it.product_id = some p ∧ p.is_active = false) →
      ∃ e, validate_items pm items = some e := by
  intro items
  induction items with
  | nil => rintro ⟨it, hmem, -⟩; exact absurd hmem (List.not_mem_nil it)
  | cons item rest ih =>
    rintro ⟨it, hmem, hbad⟩
    cases hpm : pm item.product_id with
    | none =>
      refine ⟨⟨400, "Product " ++ item.product_id ++ " not found"⟩, ?_⟩
      simp only [validate_items, hpm]
    | some product =>
      by_cases hact : product.is_active = false
      · refine ⟨⟨400, "Product '" ++ product.name ++ "' is not available"⟩, ?_⟩
        simp only [validate_items, hpm, if_pos hact]
      · rcases List.mem_cons.mp hmem with rfl | hrest
        · rcases hbad with hnone | ⟨p, hp, hpa⟩
          · rw [hpm] at hnone; exact Option.noConfusion hnone
          · rw [hpm] at hp
            obtain rfl := Option.some.inj hp
            exact absurd hpa hact
        · obtain ⟨e, he⟩ := ih ⟨it, hrest, hbad⟩
          refine ⟨e, ?_⟩
          simp only [validate_items, hpm, if_neg hact, he]

/-- Evaluation of `create_order` when validation passes and both inserts
succeed: the daily counter advances exactly one step, the new order row and
its items are appended, and the products table is untouched. -/
theorem create_order_ok_eq (today : Date) (b : StoreBehavior) (db : DB)
    (o : OrderCreate) (rows : List OrderItemRow) (total : ℚ)
    (hdata : (queryProductsIn db.products
        (o.items.map (fun item => item.product_id))).isEmpty = false)
    (hval : validate_items
        (dictGet (queryProductsIn db.products
          (o.items.map (fun item => item.product_id)))) o.items = none)
    (hbuild : build_items
        (dictGet (queryProductsIn db.products
          (o.items.map (fun item => item.product_id)))) o.items 0 = .ok (rows, total))
    (hb1 : b.orderInsertOk = true) (hb2 : b.itemsInsertOk = true) :
    create_order today b db o =
      (.ok ⟨(get_or_create_daily_counter db.daily_counter).1,
            format_daily_id (get_or_create_daily_counter db.daily_counter).1,
            generate_invoice_id today (get_or_create_daily_counter db.daily_counter).1,
            total, rows⟩,
       ⟨db.products, (get_or_create_daily_counter db.daily_counter).2,
        db.orders ++ [⟨db.orders.length,
          (get_or_create_daily_counter db.daily_counter).1,
          generate_invoice_id today (get_or_create_daily_counter db.daily_counter).1,
          o.runner_id, total, OrderStatus.PENDING⟩],
        db.order_items ++ rows.map (fun r => (db.orders.length, r))⟩) := by
  simp only [create_order, hdata, Bool.false_eq_true, if_false, hval, hbuild,
    hb1, hb2, if_true]

/-- One counter step after another: the value used by the next call is one
more than the value used by the previous call. -/
theorem get_or_create_daily_counter_step (cnt : Option Nat) :
    (get_or_create_daily_counter ((get_or_create_daily_counter cnt).2)).1 =
      (get_or_create_daily_counter cnt).1 + 1 := by
  cases cnt <;> rfl

/-- Sequentially created orders receive consecutive daily ids starting from
the next counter value. -/
theorem seq_daily_ids (today : Date) (b : StoreBehavior)
    (hb1 : b.orderInsertOk = true) (hb2 : b.itemsInsertOk = true) :
    ∀ (os : List OrderCreate) (db : DB),
      (∀ o ∈ os, orderValidFor db o) →
      (createOrderSeq today b os db).1.map resultDailyId =
        (List.range' ((get_or_create_daily_counter db.daily_counter).1)
          os.length).map some := by
  intro os
  induction os with
  | nil => intro db _; rfl
  | cons o os ih =>
    intro db hvalid
    obtain ⟨hdata, hval⟩ := hvalid o (List.mem_cons_self o os)
    obtain ⟨rows, total, hbuild⟩ := validate_items_ok_build_ok _ _ hval 0
    have hco := create_order_ok_eq today b db o rows total hdata hval hbuild hb1 hb2
    simp only [createOrderSeq, hco, List.map_cons, resultDailyId, List.length_cons]
    rw [List.range'_succ, List.map_cons]
    refine congrArg (fun l => some (get_or_create_daily_counter db.daily_counter).1 :: l) ?_
    have hih := ih (DB.mk db.products (get_or_create_daily_counter db.daily_counter).2
        (db.orders ++ [⟨db.orders.length,
          (get_or_create_daily_counter db.daily_counter).1,
          generate_invoice_id today (get_or_create_daily_counter db.daily_counter).1,
          o.runner_id, total, OrderStatus.PENDING⟩])
        (db.order_items ++ rows.map (fun r => (db.orders.length, r))))
      (fun o' ho' => hvalid o' (List.mem_cons_of_mem o ho'))
    rw [hih]
    dsimp only
    rw [get_or_create_daily_counter_step]

/-- C1: starting from a day with no counter row, N strictly sequential
createOrder calls on the same calendar day (each with any valid request)
assign daily ids exactly 1, 2, ..., N in order — the counter row is created
at 1 on the first order and incremented by exactly one on each later order
(the sequence List.range' 1 N is precisely [1, ..., N]: no duplicates, no
gaps). -/
theorem C1_sequential_daily_ids_are_one_to_N :
    ∀ (today : Date) (b : StoreBehavior) (os : List OrderCreate) (db : DB),
      db.daily_counter = none →
      (∀ o ∈ os, orderValidFor db o) →
      b.orderInsertOk = true → b.itemsInsertOk = true →
      (createOrderSeq today b os db).1.map resultDailyId =
        (List.range' 1 os.length).map some := by
  intro today b os db hcnt hvalid hb1 hb2
  have h := seq_daily_ids today b hb1 hb2 os db hvalid
  rw [hcnt] at h
  exact h

/-- A hit in the fetched-products dict is a fetched product with the looked
up id. -/
theorem dictGet_mem (data : List Product) (k : String) (p : Product)
    (h : dictGet data k = some p) : p ∈ data ∧ p.id = k := by
  unfold dictGet at h
  refine ⟨List.mem_reverse.mp (List.mem_of_find?_eq_some h), ?_⟩
  have hpred := List.find?_some h
  exact eq_of_beq hpred

/-- C2: whenever createOrder succeeds, every order item's subtotal is the
snapshotted catalog price of its product times the requested quantity, the
response's total_amount is the sum of the item subtotals, the requested
quantities are passed through item by item, and the persisted order row
carries that same total with the item rows attached to it. -/
theorem C2_total_is_sum_of_subtotals :
    ∀ (today : Date) (b : StoreBehavior) (db : DB) (o : OrderCreate)
      (res : CreateOrderResult) (db' : DB),
      create_order today b db o = (.ok res, db') →
      res.total_amount = (res.items.map OrderItemRow.subtotal).sum ∧
      (∀ r ∈ res.items, r.subtotal = r.price_at_purchase * r.quantity ∧
        ∃ p ∈ db.products, p.id = r.product_id ∧ p.price = r.price_at_purchase ∧
          p.name = r.product_name) ∧
      res.items.map OrderItemRow.quantity = o.items.map OrderItemCreate.quantity ∧
      ∃ row, db'.orders = db.orders ++ [row] ∧
        row.total_amount = res.total_amount ∧
        db'.order_items = db.order_items ++ res.items.map (fun r => (row.id, r)) := by
  intro today b db o res db' h
  simp only [create_order] at h
  by_cases hdata : (queryProductsIn db.products
      (o.items.map (fun item => item.product_id))).isEmpty = true
  · rw [if_pos hdata] at h
    simp at h
  · rw [if_neg hdata] at h
    cases hval : validate_items (dictGet (queryProductsIn db.products
        (o.items.map (fun item => item.product_id)))) o.items with
    | some e => simp only [hval] at h; simp at h
    | none =>
      simp only [hval] at h
      cases hbuild : build_items (dictGet (queryProductsIn db.products
          (o.items.map (fun item => item.product_id)))) o.items 0 with
      | error e => simp only [hbuild] at h; simp at h
      | ok v =>
        obtain ⟨rows, total⟩ := v
        simp only [hbuild] at h
        cases hb1 : b.orderInsertOk with
        | false => simp only [hb1, Bool.false_eq_true, if_false] at h; simp at h
        | true =>
          simp only [hb1, if_true] at h
          cases hb2 : b.itemsInsertOk with
          | false => simp only [hb2, Bool.false_eq_true, if_false] at h; simp at h
          | true =>
            simp only [hb2, if_true, Prod.mk.injEq, Except.ok.injEq] at h
            obtain ⟨hres, hdb⟩ := h
            subst hres
            subst hdb
            obtain ⟨htot, hq, hp, hr⟩ := build_items_ok_spec _ o.items 0 rows total hbuild
            refine ⟨?_, ?_, ?_, ?_⟩
            · simpa using htot
            · intro r hrm
              obtain ⟨hsub, p, hpm, hprice, hname⟩ := hr r hrm
              obtain ⟨hmem, hid⟩ := dictGet_mem _ _ _ hpm
              exact ⟨hsub, p, List.mem_of_mem_filter hmem, hid, hprice.symm, hname.symm⟩
            · exact hq
            · exact ⟨⟨db.orders.length,
                (get_or_create_daily_counter db.daily_counter).1,
                generate_invoice_id today (get_or_create_daily_counter db.daily_counter).1,
                o.runner_id, total, OrderStatus.PENDING⟩, rfl, rfl, rfl⟩

/-- When some requested item fails the product validation (unknown id in
the fetched dict, or inactive product), `create_order` returns a 400 and
leaves the store untouched. -/
theorem create_order_invalid_400 (today : Date) (b : StoreBehavior)
    (db : DB) (o : OrderCreate)
    (hbad : ∃ it ∈ o.items,
      dictGet (queryProductsIn db.products
        (o.items.map (fun item => item.product_id))) it.product_id = none ∨
      ∃ p, dictGet (queryProductsIn db.products
        (o.items.map (fun item => item.product_id))) it.product_id = some p ∧
        p.is_active = false) :
    ∃ e, create_order today b db o = (.error e, db) ∧ e.status_code = 400 := by
  by_cases hdata : (queryProductsIn db.products
      (o.items.map (fun item => item.product_id))).isEmpty = true
  · refine ⟨⟨400, "No valid products found"⟩, ?_, rfl⟩
    simp only [create_order, hdata, if_true]
  · obtain ⟨e, he⟩ := validate_items_finds_bad _ o.items hbad
    refine ⟨e, ?_, validate_items_some_400 _ o.items e he⟩
    simp only [create_order, hdata, Bool.false_eq_true, if_false, he]

/-- C6 (amended): a createOrder call whose item list references a product
id that matches no product row fails with a 400 error — the same
InvalidInput status the endpoint uses for an inactive product — not with a
404 NotFound; in both cases the products were fetched in one batch lookup
and the store state is returned unchanged, so the failure happens before
any write. -/
theorem C6_unknown_product_gives_400_not_404 :
    ∀ (today : Date) (b : StoreBehavior) (db : DB) (o : OrderCreate),
      ((∃ it ∈ o.items, ∀ p ∈ db.products, p.id ≠ it.product_id) →
        ∃ e, create_order today b db o = (.error e, db) ∧
          e.status_code = 400 ∧ e.status_code ≠ 404) ∧
      ((∃ it ∈ o.items, ∃ p, dictGet (queryProductsIn db.products
          (o.items.map (fun item => item.product_id))) it.product_id = some p ∧
          p.is_active = false) →
        ∃ e, create_order today b db o = (.error e, db) ∧
          e.status_code = 400) := by
  intro today b db o
  constructor
  · rintro ⟨it, hmem, hnot⟩
    have hnone : dictGet (queryProductsIn db.products
        (o.items.map (fun item => item.product_id))) it.product_id = none := by
      unfold dictGet
      rw [List.find?_eq_none]
      intro p hp
      have hpd : p ∈ queryProductsIn db.products
          (o.items.map (fun item => item.product_id)) := List.mem_reverse.mp hp
      have : p.id ≠ it.product_id := hnot p (List.mem_of_mem_filter hpd)
      simpa using this
    obtain ⟨e, heq, h400⟩ :=
      create_order_invalid_400 today b db o ⟨it, hmem, Or.inl hnone⟩
    exact ⟨e, heq, h400, by omega⟩
  · rintro ⟨it, hmem, p, hp, hpa⟩
    exact create_order_invalid_400 today b db o ⟨it, hmem, Or.inr ⟨p, hp, hpa⟩⟩

/-- C6 counterexample: the claim says an unknown product id makes
createOrder fail with NotFound, the error kind mapping to HTTP 404; on the
code, the concrete call referencing the unknown id p9 fails with status
code 400 (and detail "Product p9 not found"), not 404. -/
theorem C6_counterexample_unknown_product_is_400 :
    create_order ⟨2024, 1, 5⟩ ⟨true, true⟩ demoDB demoBadOrder =
      (.error ⟨400, "Product p9 not found"⟩, demoDB) ∧ (400 : Nat) ≠ 404 :=
  ⟨rfl, by decide⟩

/-- Witness for C6 (amended) at the concrete store and order: the unknown
id p9 yields a 400 with the state unchanged. -/
theorem C6_witness :
    (∃ it ∈ demoBadOrder.items, ∀ p ∈ demoDB.products, p.id ≠ it.product_id) ∧
    ∃ e, create_order ⟨2024, 1, 5⟩ ⟨true, true⟩ demoDB demoBadOrder =
      (.error e, demoDB) ∧ e.status_code = 400 ∧ e.status_code ≠ 404 :=
  ⟨⟨⟨"p9", 1⟩, by decide, by decide⟩,
   (C6_unknown_product_gives_400_not_404 ⟨2024, 1, 5⟩ ⟨true, true⟩ demoDB
      demoBadOrder).1 ⟨⟨"p9", 1⟩, by decide, by decide⟩⟩

/-- Witness for C1: three sequential creations of the demo order on the
fresh demo store receive daily ids 1, 2, 3. -/
theorem C1_witness :
    (createOrderSeq ⟨2024, 1, 5⟩ ⟨true, true⟩
        [demoOrder, demoOrder, demoOrder] demoDB).1.map resultDailyId =
      (List.range' 1 [demoOrder, demoOrder, demoOrder].length).map some :=
  C1_sequential_daily_ids_are_one_to_N ⟨2024, 1, 5⟩ ⟨true, true⟩
    [demoOrder, demoOrder, demoOrder] demoDB rfl
    (by
      intro o ho
      simp only [List.mem_cons, List.not_mem_nil, or_false] at ho
      rcases ho with rfl | rfl | rfl <;> exact ⟨rfl, rfl⟩) rfl rfl

/-- Witness for C2: the spec scenario — items (productA, qty 2, price 10)
and (productB, qty 1, price 5) — creates an order with total 25 whose
total equals the sum of the item subtotals 20 and 5. -/
theorem C2_witness :
    create_order ⟨2024, 1, 5⟩ ⟨true, true⟩ demoDB demoOrder =
      (.ok demoRes, demoDBAfter) ∧
    demoRes.total_amount = (demoRes.items.map OrderItemRow.subtotal).sum ∧
    demoRes.items.map OrderItemRow.quantity =
      demoOrder.items.map OrderItemCreate.quantity := by
  have hbuild : build_items (dictGet (queryProductsIn demoDB.products
      (demoOrder.items.map (fun item => item.product_id)))) demoOrder.items 0 =
      .ok (demoRows, 25) := by
    norm_num +decide [build_items, dictGet, queryProductsIn, demoDB, demoOrder,
      demoRows, demoProductA, demoProductB]
  have hco : create_order ⟨2024, 1, 5⟩ ⟨true, true⟩ demoDB demoOrder =
      (.ok demoRes, demoDBAfter) :=
    create_order_ok_eq ⟨2024, 1, 5⟩ ⟨true, true⟩ demoDB demoOrder demoRows 25
      rfl rfl hbuild rfl rfl
  obtain ⟨ht, -, hq, -⟩ := C2_total_is_sum_of_subtotals ⟨2024, 1, 5⟩
    ⟨true, true⟩ demoDB demoOrder demoRes demoDBAfter hco
  exact ⟨hco, ht, hq⟩
